import Mathlib

/-!
Shallow embedding of the credential and session lifecycle subsystem of a
NestJS authentication service.

Sources embedded:
- `src/modules/otp/otp.service.ts` (`OtpService`): OTP issuance, verification,
  expired-record cleanup.
- `src/modules/auth/auth.service.ts` (`AuthService`): login, refresh-token
  rotation, logout, session listing and revocation, JWT-payload validation.
- `src/modules/users/users.service.ts` (`UsersService`): email lookup and
  `verifyEmail`.

Modelling conventions:
- Timestamps are `Nat` milliseconds (JavaScript `Date.now()`); `new Date()`
  taken during one call is a single `now` parameter.
- Database tables (`otps`, `refresh_tokens`, `users`) are Lean lists of
  records; TypeORM `findOne` without an `order` clause is `List.find?`,
  `findOne` with `order: \x7b createdAt: 'DESC' \x7d` picks the element with the
  largest `createdAt`, `update(criteria, patch)` maps the patch over the rows
  matching the criteria, `delete(criteria)` filters them out, and `save`
  appends a fresh row (fresh primary keys are parameters).
- `bcrypt.compare` and the SHA-256 / bcrypt hash functions are opaque
  function parameters; randomly generated OTP codes and refresh secrets are
  parameters as well.
- Thrown `HttpException`s become tagged result values carrying the exact
  message strings of the source; each operation returns its result paired
  with the store states it may have written.
-/

/-- `users` table row (`user.entity.ts`). `password` holds the bcrypt hash. -/
structure UserRec where
  id : Nat
  email : String
  name : Option String
  password : Nat
  emailVerified : Bool
  deriving DecidableEq

/-- The `type` enum column of the `otps` table. -/
inductive OtpType
  | emailVerification
  | passwordReset
  deriving DecidableEq

/-- `otps` table row (`otp.entity.ts`). -/
structure OtpRec where
  id : Nat
  email : String
  hashedOtp : Nat
  expiresAt : Nat
  used : Bool
  type : OtpType
  createdAt : Nat
  userId : Option Nat
  deriving DecidableEq

/-- `refresh_tokens` table row (`refresh-token.entity.ts`). -/
structure RefreshToken where
  id : Nat
  hashedToken : Nat
  expiresAt : Nat
  revoked : Bool
  userAgent : Option String
  ipAddress : Option String
  createdAt : Nat
  userId : Nat
  deriving DecidableEq

/-! ## OtpService (`otp.service.ts`) -/

/-- `OtpService.cleanupExpiredOtps`: `delete(\x7b expiresAt: LessThan(new Date()) \x7d)`. -/
def cleanupExpiredOtps (now : Nat) (otps : List OtpRec) : List OtpRec :=
  otps.filter (fun r => !decide (r.expiresAt < now))

/-- `findOne` with `order: \x7b createdAt: 'DESC' \x7d`: the row with the largest
`createdAt` among the rows matching the `where` clause (the caller filters
first). -/
def findLatestCreated : List OtpRec → Option OtpRec
  | [] => none
  | r :: rs =>
    match findLatestCreated rs with
    | none => some r
    | some b => if b.createdAt > r.createdAt then some b else some r

/-- Outcome of `OtpService.createEmailVerificationOtp`: either the
`BadRequestException("Please wait ... seconds")` rate-limit rejection or the
plaintext code returned for delivery. -/
inductive IssueResult
  | rateLimited (remainingTimeSec : Int)
  | ok (otp : Nat)
  deriving DecidableEq

/-- The `update(\x7b email, type: 'email_verification', used: false \x7d, \x7b used: true \x7d)`
step of `createEmailVerificationOtp`: mark every prior unused
email-verification OTP for `email` as used. -/
def markPriorUsed (email : String) (otps : List OtpRec) : List OtpRec :=
  otps.map (fun r =>
    if r.email == email && r.type == OtpType.emailVerification && !r.used then
      { r with used := true }
    else r)

/-- The tail of `createEmailVerificationOtp` past the rate-limit guard:
invalidate prior unused codes, then `save` the new hashed record with
`expiresAt = now + expiryMinutes` and return the plaintext code. -/
def issueFresh (expiryMinutes : Nat) (hashOtp : Nat → Nat) (now newId : Nat)
    (email : String) (userId : Option Nat) (otp : Nat) (s1 : List OtpRec) :
    IssueResult × List OtpRec :=
  let s2 := markPriorUsed email s1
  let newRec : OtpRec :=
    { id := newId, email := email, hashedOtp := hashOtp otp,
      expiresAt := now + expiryMinutes * 60 * 1000, used := false,
      type := OtpType.emailVerification, createdAt := now, userId := userId }
  (IssueResult.ok otp, s2 ++ [newRec])

/-- `OtpService.createEmailVerificationOtp(email, userId)`.
Cleans up expired rows, then looks up
`findOne(\x7b where: \x7b email, type, createdAt: LessThan(oneMinuteAgo) \x7d, order: \x7b createdAt: 'DESC' \x7d \x7d)`
and rejects with the rate-limit error when the found row additionally has
`createdAt > oneMinuteAgo`; JavaScript `Math.ceil(x / 1000)` on the
(nonnegative-intended) remaining time is modelled as `(x + 999) / 1000` over
`Int`.  `otp` is the `generateOtp()` random six-digit code, `newId` the fresh
primary key. -/
def createEmailVerificationOtp (expiryMinutes : Nat) (hashOtp : Nat → Nat)
    (now newId : Nat) (email : String) (userId : Option Nat) (otp : Nat)
    (otps : List OtpRec) : IssueResult × List OtpRec :=
  let s1 := cleanupExpiredOtps now otps
  let oneMinuteAgo := now - 60 * 1000
  match findLatestCreated (s1.filter (fun r =>
      r.email == email && r.type == OtpType.emailVerification &&
      decide (r.createdAt < oneMinuteAgo))) with
  | some recent =>
    if recent.createdAt > oneMinuteAgo then
      (IssueResult.rateLimited
        (((oneMinuteAgo : Int) - (recent.createdAt : Int) + 999) / 1000), s1)
    else
      issueFresh expiryMinutes hashOtp now newId email userId otp s1
  | none =>
    issueFresh expiryMinutes hashOtp now newId email userId otp s1

/-- `OtpService.verifyEmailOtp(email, otp)`: cleanup, find the latest unused
email-verification row, fail on absence or expiry, compare via
`bcrypt.compare`, and mark the row used on success. -/
def verifyEmailOtp (bcryptCompare : Nat → Nat → Bool) (now : Nat)
    (email : String) (otp : Nat) (otps : List OtpRec) : Bool × List OtpRec :=
  let s1 := cleanupExpiredOtps now otps
  match findLatestCreated (s1.filter (fun r =>
      r.email == email && r.type == OtpType.emailVerification && !r.used)) with
  | none => (false, s1)
  | some e =>
    if e.expiresAt < now then (false, s1)
    else if bcryptCompare otp e.hashedOtp then
      (true, s1.map (fun r => if r.id == e.id then { r with used := true } else r))
    else (false, s1)

example :
    createEmailVerificationOtp 10 (fun c => c) 200000 1 "a" none 42 []
      = (IssueResult.ok 42,
         [{ id := 1, email := "a", hashedOtp := 42, expiresAt := 800000,
            used := false, type := OtpType.emailVerification,
            createdAt := 200000, userId := none }]) := by decide

/-! ## UsersService (`users.service.ts`) -/

/-- `UsersService.findByEmail` / `findByEmailWithPassword`:
`findOne(\x7b where: \x7b email \x7d \x7d)` (the two differ only in column selection,
which the record model keeps whole). -/
def findByEmail (email : String) (users : List UserRec) : Option UserRec :=
  users.find? (fun u => u.email == email)

/-- `UsersService.verifyEmail(userId)`: `update(userId, \x7b emailVerified: true \x7d)`. -/
def usersVerifyEmail (userId : Nat) (users : List UserRec) : List UserRec :=
  users.map (fun u => if u.id == userId then { u with emailVerified := true } else u)

/-! ## AuthService (`auth.service.ts`) -/

/-- The JWT claims `AuthService.generateTokens` signs
(`JwtPayload \x7b sub, email, emailVerified \x7d`). -/
structure JwtPayload where
  sub : Nat
  email : String
  emailVerified : Bool
  deriving DecidableEq

/-- 30 days in milliseconds: `expiresAt.setDate(expiresAt.getDate() + 30)`. -/
def thirtyDaysMs : Nat := 30 * 24 * 60 * 60 * 1000

/-- The `refreshTokenRepository.save(...)` step of `generateTokens`: append the
new session row holding the SHA-256 hash of the fresh refresh secret, expiring
30 days from `now`. -/
def saveRefreshSession (hashToken : Nat → Nat) (now freshToken newId userId : Nat)
    (userAgent ipAddress : Option String) (sessions : List RefreshToken) :
    List RefreshToken :=
  sessions ++
    [{ id := newId, hashedToken := hashToken freshToken,
       expiresAt := now + thirtyDaysMs, revoked := false,
       userAgent := userAgent, ipAddress := ipAddress,
       createdAt := now, userId := userId }]

/-- `AuthService.generateTokens(user, userAgent, ipAddress)`: sign the JWT
payload and persist the hashed fresh refresh secret. -/
def generateTokens (hashToken : Nat → Nat) (now freshToken newId : Nat)
    (u : UserRec) (userAgent ipAddress : Option String)
    (sessions : List RefreshToken) : JwtPayload × List RefreshToken :=
  ({ sub := u.id, email := u.email, emailVerified := u.emailVerified },
   saveRefreshSession hashToken now freshToken newId u.id userAgent ipAddress sessions)

/-- Outcome of `AuthService.login`. `ok` carries the sanitized user id, the
signed access-token payload and the plaintext refresh secret. -/
inductive LoginResult
  | unauthorized (msg : String)
  | ok (userId : Nat) (accessToken : JwtPayload) (refreshSecret : Nat)
  deriving DecidableEq

/-- `AuthService.login(loginDto, userAgent, ipAddress)`: absent user,
unverified email and wrong password each throw `UnauthorizedException` with
the exact source message; success generates tokens. `freshToken` is the
random `generateRefreshToken()` value, `newId` the fresh session row key. -/
def login (bcryptCompare : Nat → Nat → Bool) (hashToken : Nat → Nat)
    (now freshToken newId : Nat) (email : String) (password : Nat)
    (userAgent ipAddress : Option String) (users : List UserRec)
    (sessions : List RefreshToken) : LoginResult × List RefreshToken :=
  match findByEmail email users with
  | none => (LoginResult.unauthorized "Invalid email or password", sessions)
  | some u =>
    if !u.emailVerified then
      (LoginResult.unauthorized "Please verify your email before logging in", sessions)
    else if !bcryptCompare password u.password then
      (LoginResult.unauthorized "Invalid email or password", sessions)
    else
      let (payload, sessions') :=
        generateTokens hashToken now freshToken newId u userAgent ipAddress sessions
      (LoginResult.ok u.id payload freshToken, sessions')

/-- Outcome of `AuthService.refreshToken`. `ok` carries the rotated session's
user id and the fresh plaintext refresh secret (the freshly minted JWT is
built from the joined user row and adds nothing to the session-store
semantics the claims concern). -/
inductive RotateResult
  | unauthorized (msg : String)
  | ok (userId : Nat) (newRefreshSecret : Nat)
  deriving DecidableEq

/-- The `findOne(\x7b where: \x7b hashedToken, revoked: false \x7d \x7d)` lookup that
opens `AuthService.refreshToken`. -/
def rotateLookup (hashToken : Nat → Nat) (presented : Nat)
    (sessions : List RefreshToken) : Option RefreshToken :=
  sessions.find? (fun r => r.hashedToken == hashToken presented && !r.revoked)

/-- `refreshTokenRepository.update(id, \x7b revoked: true \x7d)`: revoke the row
with primary key `id`. -/
def revokeById (id : Nat) (sessions : List RefreshToken) : List RefreshToken :=
  sessions.map (fun r => if r.id == id then { r with revoked := true } else r)

/-- The remainder of `AuthService.refreshToken` once the lookup returned
`tokenEntity = te`: expiry check (revoking the expired row), then the
unconditional revoke-by-id followed by `generateTokens`. -/
def rotateCommit (hashToken : Nat → Nat) (now freshToken newId : Nat)
    (userAgent ipAddress : Option String) (te : RefreshToken)
    (sessions : List RefreshToken) : RotateResult × List RefreshToken :=
  if te.expiresAt < now then
    (RotateResult.unauthorized "Refresh token expired", revokeById te.id sessions)
  else
    (RotateResult.ok te.userId freshToken,
     saveRefreshSession hashToken now freshToken newId te.userId userAgent ipAddress
       (revokeById te.id sessions))

/-- `AuthService.refreshToken(refreshTokenDto, userAgent, ipAddress)`: hash the
presented secret, look the session up, fail `Unauthorized("Invalid refresh
token")` when no unrevoked row matches, then run the rotation tail. -/
def refreshToken (hashToken : Nat → Nat) (now freshToken newId : Nat)
    (userAgent ipAddress : Option String) (presented : Nat)
    (sessions : List RefreshToken) : RotateResult × List RefreshToken :=
  match rotateLookup hashToken presented sessions with
  | none => (RotateResult.unauthorized "Invalid refresh token", sessions)
  | some te => rotateCommit hashToken now freshToken newId userAgent ipAddress te sessions

/-- `AuthService.logout(refreshToken)`:
`update(\x7b hashedToken \x7d, \x7b revoked: true \x7d)` — unconditional, idempotent. -/
def logout (hashToken : Nat → Nat) (presented : Nat)
    (sessions : List RefreshToken) : List RefreshToken :=
  sessions.map (fun r =>
    if r.hashedToken == hashToken presented then { r with revoked := true } else r)

/-- `AuthService.logoutFromAllDevices(userId)`:
`update(\x7b userId, revoked: false \x7d, \x7b revoked: true \x7d)`. -/
def logoutFromAllDevices (userId : Nat) (sessions : List RefreshToken) :
    List RefreshToken :=
  sessions.map (fun r =>
    if r.userId == userId && !r.revoked then { r with revoked := true } else r)

/-- `AuthService.validateUser(payload)` (the per-request JWT-strategy hook):
`findByEmail(payload.email)`, then `user && user.emailVerified ? user : null`. -/
def validateUser (payload : JwtPayload) (users : List UserRec) : Option UserRec :=
  match findByEmail payload.email users with
  | none => none
  | some u => if u.emailVerified then some u else none

/-- Outcome of `AuthService.verifyEmail`. -/
inductive VerifyEmailResult
  | badRequest (msg : String)
  | notFound (msg : String)
  | ok (userId : Nat)
  deriving DecidableEq

/-- `AuthService.verifyEmail(verifyOtpDto)`: consume the OTP through
`OtpService.verifyEmailOtp` first, and only then check that the user exists
and is not already verified; on success flip `emailVerified` (the best-effort
welcome mail has no store effect). Returns the outcome with the resulting
`users` and `otps` tables. -/
def verifyEmail (bcryptCompare : Nat → Nat → Bool) (now : Nat)
    (email : String) (otp : Nat) (users : List UserRec) (otps : List OtpRec) :
    VerifyEmailResult × List UserRec × List OtpRec :=
  let res := verifyEmailOtp bcryptCompare now email otp otps
  if !res.1 then
    (VerifyEmailResult.badRequest "Invalid or expired OTP", users, res.2)
  else
    match findByEmail email users with
    | none => (VerifyEmailResult.notFound "User not found", users, res.2)
    | some u =>
      if u.emailVerified then
        (VerifyEmailResult.badRequest "Email is already verified", users, res.2)
      else
        (VerifyEmailResult.ok u.id, usersVerifyEmail u.id users, res.2)

/-- Outcome of `AuthService.revokeSession`. -/
inductive RevokeResult
  | notFound (msg : String)
  | ok
  deriving DecidableEq

/-- `AuthService.revokeSession(userId, sessionId)`:
`update(\x7b id, userId, revoked: false \x7d, \x7b revoked: true \x7d)`, then throw
`NotFoundException("Session not found")` when `result.affected === 0`. -/
def revokeSession (userId sessionId : Nat) (sessions : List RefreshToken) :
    RevokeResult × List RefreshToken :=
  let affected := sessions.countP
    (fun r => r.id == sessionId && r.userId == userId && !r.revoked)
  let sessions' := sessions.map (fun r =>
    if r.id == sessionId && r.userId == userId && !r.revoked then
      { r with revoked := true }
    else r)
  if affected == 0 then (RevokeResult.notFound "Session not found", sessions')
  else (RevokeResult.ok, sessions')

/-- The projection `getActiveSessions` maps each row through (`select` plus
the `|| 'Unknown'` defaults). -/
structure SessionView where
  id : Nat
  userAgent : String
  ipAddress : String
  createdAt : Nat
  expiresAt : Nat
  deriving DecidableEq

/-- Row projection of `getActiveSessions`. -/
def sessionView (r : RefreshToken) : SessionView :=
  { id := r.id, userAgent := r.userAgent.getD "Unknown",
    ipAddress := r.ipAddress.getD "Unknown",
    createdAt := r.createdAt, expiresAt := r.expiresAt }

/-- Stable insertion step for `order: \x7b createdAt: 'DESC' \x7d`. -/
def insertByCreatedAtDesc (r : RefreshToken) : List RefreshToken → List RefreshToken
  | [] => [r]
  | x :: xs =>
    if r.createdAt ≤ x.createdAt then x :: insertByCreatedAtDesc r xs
    else r :: x :: xs

/-- `order: \x7b createdAt: 'DESC' \x7d` over a row list. -/
def sortByCreatedAtDesc (l : List RefreshToken) : List RefreshToken :=
  l.foldr insertByCreatedAtDesc []

/-- `AuthService.getActiveSessions(userId)`:
`find(\x7b where: \x7b userId, revoked: false \x7d, order: \x7b createdAt: 'DESC' \x7d \x7d)`
projected through `sessionView`. The `where` clause tests only `revoked`,
never `expiresAt`. -/
def getActiveSessions (userId : Nat) (sessions : List RefreshToken) :
    List SessionView :=
  (sortByCreatedAtDesc (sessions.filter (fun r => r.userId == userId && !r.revoked))).map
    sessionView

/-! ## Helper lemmas -/

/-- `findLatestCreated` only returns an element of its input list. -/
theorem findLatestCreated_mem {l : List OtpRec} {r : OtpRec}
    (h : findLatestCreated l = some r) : r ∈ l := by
  induction l with
  | nil => simp [findLatestCreated] at h
  | cons a as ih =>
    rw [findLatestCreated] at h
    split at h
    · have ha : a = r := Option.some.inj h
      rw [← ha]
      exact List.mem_cons_self a as
    · rename_i b hb
      split at h
      · have hbr : b = r := Option.some.inj h
        subst hbr
        exact List.mem_cons_of_mem a (ih hb)
      · have ha : a = r := Option.some.inj h
        rw [← ha]
        exact List.mem_cons_self a as

/-- Mapping a row patch that can only falsify the counted predicate does not
increase the count. -/
theorem countP_map_le_of_imp {α : Type} (p : α → Bool) (f : α → α)
    (h : ∀ r, p (f r) = true → p r = true) (l : List α) :
    (l.map f).countP p ≤ l.countP p := by
  rw [List.countP_map]
  exact List.countP_mono_left (fun a _ ha => h a ha)

/-- A list holding two distinct elements has length at least two. -/
theorem two_le_length_of_two_mem {α : Type} {l : List α} {a b : α}
    (ha : a ∈ l) (hb : b ∈ l) (hne : a ≠ b) : 2 ≤ l.length := by
  induction l with
  | nil => cases ha
  | cons x xs ih =>
    rcases List.mem_cons.mp ha with h1 | h1
    · rcases List.mem_cons.mp hb with h2 | h2
      · exact absurd (h1.trans h2.symm) hne
      · have := List.length_pos_of_mem h2
        simp only [List.length_cons]
        omega
    · rcases List.mem_cons.mp hb with h2 | h2
      · have := List.length_pos_of_mem h1
        simp only [List.length_cons]
        omega
      · have := ih h1 h2
        simp only [List.length_cons]
        omega

/-- A conditional row patch whose condition holds nowhere in the list is the
identity update. -/
theorem map_ite_eq_self_of_no_match {α : Type} (p : α → Bool) (f : α → α)
    (l : List α) (h : ∀ r ∈ l, p r = false) :
    (l.map (fun r => if p r then f r else r)) = l := by
  have : (l.map (fun r => if p r then f r else r)) = l.map id := by
    apply List.map_congr_left
    intro a ha
    rw [h a ha]
    simp
  rw [this, List.map_id]

/-- Membership through one `ORDER BY createdAt DESC` insertion step. -/
theorem mem_insertByCreatedAtDesc {r x : RefreshToken} {l : List RefreshToken} :
    x ∈ insertByCreatedAtDesc r l ↔ x = r ∨ x ∈ l := by
  induction l with
  | nil => simp [insertByCreatedAtDesc]
  | cons a as ih =>
    rw [insertByCreatedAtDesc]
    by_cases h : r.createdAt ≤ a.createdAt
    · rw [if_pos h]
      simp only [List.mem_cons, ih]
      tauto
    · rw [if_neg h]
      simp only [List.mem_cons]

/-- Sorting by `createdAt` descending preserves the row set. -/
theorem mem_sortByCreatedAtDesc {x : RefreshToken} {l : List RefreshToken} :
    x ∈ sortByCreatedAtDesc l ↔ x ∈ l := by
  induction l with
  | nil => simp [sortByCreatedAtDesc]
  | cons a as ih =>
    have hstep : sortByCreatedAtDesc (a :: as)
        = insertByCreatedAtDesc a (sortByCreatedAtDesc as) := rfl
    rw [hstep, mem_insertByCreatedAtDesc, ih, List.mem_cons]

/-! ## C2: OTP issuance rate limiting -/

/-- C2: the rate-limit rejection of `createEmailVerificationOtp` is
unreachable.  The lookup keeps only rows with `createdAt < oneMinuteAgo`
(`LessThan(oneMinuteAgo)`) while the guard demands
`createdAt > oneMinuteAgo` of the found row, so no call ever fails
`RateLimited`, contradicting the documented one-OTP-per-minute cooldown. -/
theorem createOtp_rateLimit_unreachable (expiryMinutes : Nat)
    (hashOtp : Nat → Nat) (now newId : Nat) (email : String)
    (userId : Option Nat) (otp : Nat) (otps : List OtpRec) (t : Int) :
    (createEmailVerificationOtp expiryMinutes hashOtp now newId email userId
        otp otps).1 ≠ IssueResult.rateLimited t := by
  simp only [createEmailVerificationOtp]
  split
  · rename_i recent hf
    have hmem := findLatestCreated_mem hf
    rw [List.mem_filter] at hmem
    have hlt : recent.createdAt < now - 60 * 1000 := by
      have h2 := hmem.2
      simp only [Bool.and_eq_true, decide_eq_true_eq] at h2
      exact h2.2
    rw [if_neg (by omega : ¬ recent.createdAt > now - 60 * 1000)]
    simp [issueFresh]
  · simp [issueFresh]

/-! ## C5: OTP uniqueness invariant -/

/-- The `otps` table states reachable from the empty table through the
`OtpService` operations (each step is one complete service call). -/
inductive OtpReachable : List OtpRec → Prop
  | empty : OtpReachable []
  | create (expiryMinutes : Nat) (hashOtp : Nat → Nat) (now newId : Nat)
      (email : String) (userId : Option Nat) (otp : Nat) {s : List OtpRec}
      (h : OtpReachable s) :
      OtpReachable (createEmailVerificationOtp expiryMinutes hashOtp now newId
        email userId otp s).2
  | verify (bcryptCompare : Nat → Nat → Bool) (now : Nat) (email : String)
      (otp : Nat) {s : List OtpRec} (h : OtpReachable s) :
      OtpReachable (verifyEmailOtp bcryptCompare now email otp s).2
  | cleanup (now : Nat) {s : List OtpRec} (h : OtpReachable s) :
      OtpReachable (cleanupExpiredOtps now s)

/-- Number of unused OTP rows for an (email, purpose) pair. -/
def unusedCount (e : String) (ty : OtpType) (s : List OtpRec) : Nat :=
  s.countP (fun r => r.email == e && r.type == ty && !r.used)

/-- The cleanup sweep never increases the unused count of any pair. -/
theorem unusedCount_cleanup_le (now : Nat) (e : String) (ty : OtpType)
    (s : List OtpRec) :
    unusedCount e ty (cleanupExpiredOtps now s) ≤ unusedCount e ty s :=
  (List.filter_sublist s).countP_le _

/-- A conditional patch that only sets `used := true` never increases the
unused count of any pair. -/
theorem countP_markUsedIf_le (c : OtpRec → Bool) (e : String) (ty : OtpType)
    (s : List OtpRec) :
    (s.map (fun r => if c r then { r with used := true } else r)).countP
      (fun r => r.email == e && r.type == ty && !r.used)
      ≤ s.countP (fun r => r.email == e && r.type == ty && !r.used) := by
  apply countP_map_le_of_imp
  intro r hr
  by_cases hc : c r = true
  · rw [if_pos hc] at hr
    simp at hr
  · rw [if_neg hc] at hr
    exact hr

/-- After `markPriorUsed email`, no unused email-verification row for `email`
remains. -/
theorem unusedCount_markPriorUsed_self (em : String) (s : List OtpRec) :
    unusedCount em OtpType.emailVerification (markPriorUsed em s) = 0 := by
  rw [unusedCount, List.countP_eq_zero]
  intro x hx
  rw [markPriorUsed, List.mem_map] at hx
  obtain ⟨r, _, hfr⟩ := hx
  by_cases hc : (r.email == em && r.type == OtpType.emailVerification && !r.used) = true
  · rw [if_pos hc] at hfr
    rw [← hfr]
    simp
  · rw [if_neg hc] at hfr
    rw [← hfr]
    exact fun hcc => hc hcc

/-- The invalidate-then-insert tail of issuance leaves at most one unused row
per pair when the pre-state had at most one. -/
theorem unusedCount_issueFresh_le_one (expiryMinutes : Nat)
    (hashOtp : Nat → Nat) (now newId : Nat) (em : String)
    (userId : Option Nat) (otp : Nat) (s1 : List OtpRec) (e : String)
    (ty : OtpType) (hs1 : unusedCount e ty s1 ≤ 1) :
    unusedCount e ty
      (issueFresh expiryMinutes hashOtp now newId em userId otp s1).2 ≤ 1 := by
  simp only [issueFresh]
  rw [unusedCount, List.countP_append]
  by_cases hpair : e = em ∧ ty = OtpType.emailVerification
  · obtain ⟨he, hty⟩ := hpair
    subst he
    subst hty
    have h0 := unusedCount_markPriorUsed_self e s1
    rw [unusedCount] at h0
    rw [h0]
    have hle := List.countP_le_length
      (l := [({ id := newId, email := e, hashedOtp := hashOtp otp,
                expiresAt := now + expiryMinutes * 60 * 1000, used := false,
                type := OtpType.emailVerification, createdAt := now,
                userId := userId } : OtpRec)])
      (p := fun r => r.email == e && r.type == OtpType.emailVerification && !r.used)
    simp only [List.length_cons, List.length_nil] at hle
    omega
  · have hnew : (List.countP (fun r => r.email == e && r.type == ty && !r.used)
        [({ id := newId, email := em, hashedOtp := hashOtp otp,
            expiresAt := now + expiryMinutes * 60 * 1000, used := false,
            type := OtpType.emailVerification, createdAt := now,
            userId := userId } : OtpRec)]) = 0 := by
      rw [List.countP_eq_zero]
      intro x hx
      rw [List.mem_singleton] at hx
      subst hx
      intro hcc
      simp only [Bool.and_eq_true, beq_iff_eq] at hcc
      exact hpair ⟨hcc.1.1.symm, hcc.1.2.symm⟩
    rw [hnew]
    have hmark := countP_markUsedIf_le
      (fun r => r.email == em && r.type == OtpType.emailVerification && !r.used)
      e ty s1
    rw [unusedCount] at hs1
    have : (markPriorUsed em s1).countP
        (fun r => r.email == e && r.type == ty && !r.used)
        ≤ s1.countP (fun r => r.email == e && r.type == ty && !r.used) := hmark
    omega

/-- In every reachable `otps` state there is at most one unused row per
(email, purpose) pair. -/
theorem otp_reachable_unused_le_one {s : List OtpRec} (h : OtpReachable s)
    (e : String) (ty : OtpType) : unusedCount e ty s ≤ 1 := by
  induction h with
  | empty => simp [unusedCount]
  | create expiryMinutes hashOtp now newId em userId otp h ih =>
    simp only [createEmailVerificationOtp]
    split
    · rename_i recent hf
      split
      · exact le_trans (unusedCount_cleanup_le now e ty _) ih
      · exact unusedCount_issueFresh_le_one _ _ _ _ _ _ _ _ e ty
          (le_trans (unusedCount_cleanup_le now e ty _) ih)
    · exact unusedCount_issueFresh_le_one _ _ _ _ _ _ _ _ e ty
        (le_trans (unusedCount_cleanup_le now e ty _) ih)
  | verify bcryptCompare now em otp h ih =>
    simp only [verifyEmailOtp]
    split
    · exact le_trans (unusedCount_cleanup_le now e ty _) ih
    · rename_i e0 hf
      split
      · exact le_trans (unusedCount_cleanup_le now e ty _) ih
      · split
        · exact le_trans (countP_markUsedIf_le _ e ty _)
            (le_trans (unusedCount_cleanup_le now e ty _) ih)
        · exact le_trans (unusedCount_cleanup_le now e ty _) ih
  | cleanup now h ih =>
    exact le_trans (unusedCount_cleanup_le now e ty _) ih

/-- C5: OTP uniqueness invariant — in every store state reachable through the
`OtpService` operations, at most one unused, unexpired OTP row exists per
(email, purpose) pair (issuance first marks all prior unused rows for the
pair used, and every other operation only deletes rows or marks them used). -/
theorem otp_uniqueness_invariant {s : List OtpRec} (h : OtpReachable s)
    (e : String) (ty : OtpType) (now : Nat) :
    s.countP (fun r => r.email == e && r.type == ty && !r.used &&
      decide (now ≤ r.expiresAt)) ≤ 1 := by
  refine le_trans (List.countP_mono_left ?_) (otp_reachable_unused_le_one h e ty)
  intro r _ hr
  simp only [Bool.and_eq_true] at hr ⊢
  exact hr.1

/-- C5 witness: the invariant instantiated in the state reached by two
issuances for the same address from the empty table. -/
theorem otp_uniqueness_invariant_witness :
    ((createEmailVerificationOtp 10 (fun c => c) 310000 2 "a" none 77
        (createEmailVerificationOtp 10 (fun c => c) 200000 1 "a" none 42
          []).2).2).countP
      (fun r => r.email == "a" && r.type == OtpType.emailVerification &&
        !r.used && decide (310000 ≤ r.expiresAt)) ≤ 1 :=
  otp_uniqueness_invariant
    (OtpReachable.create 10 (fun c => c) 310000 2 "a" none 77
      (OtpReachable.create 10 (fun c => c) 200000 1 "a" none 42
        OtpReachable.empty))
    "a" OtpType.emailVerification 310000

/-! ## C4: OTP verify on failure -/

/-- On every failing path, `verifyEmailOtp` returns the post-cleanup store:
no row is marked used or created, but the opening cleanup sweep has already
deleted every expired row. -/
theorem verifyEmailOtp_snd_of_false (bcryptCompare : Nat → Nat → Bool)
    (now : Nat) (email : String) (otp : Nat) (otps : List OtpRec)
    (hfail : (verifyEmailOtp bcryptCompare now email otp otps).1 = false) :
    (verifyEmailOtp bcryptCompare now email otp otps).2
      = cleanupExpiredOtps now otps := by
  simp only [verifyEmailOtp] at hfail ⊢
  cases hsc : findLatestCreated ((cleanupExpiredOtps now otps).filter fun r =>
      r.email == email && r.type == OtpType.emailVerification && !r.used) with
  | none => simp [hsc]
  | some e0 =>
    simp only [hsc] at hfail ⊢
    by_cases hexp : e0.expiresAt < now
    · simp [hexp]
    · simp only [if_neg hexp] at hfail ⊢
      by_cases hcmp : bcryptCompare otp e0.hashedOtp = true
      · rw [if_pos hcmp] at hfail
        simp at hfail
      · rw [if_neg hcmp]

/-- C4 counterexample: a store holding a single expired unused OTP row.  The
verify call fails (returns `false`) yet deletes the row through its opening
cleanup sweep, so the store is not left unchanged. -/
theorem verifyOtp_failure_mutates_counterexample :
    (verifyEmailOtp (fun c h => c == h) 100 "a" 9
        [{ id := 1, email := "a", hashedOtp := 9, expiresAt := 10,
           used := false, type := OtpType.emailVerification, createdAt := 0,
           userId := none }]).1 = false ∧
    (verifyEmailOtp (fun c h => c == h) 100 "a" 9
        [{ id := 1, email := "a", hashedOtp := 9, expiresAt := 10,
           used := false, type := OtpType.emailVerification, createdAt := 0,
           userId := none }]).2
      ≠ [{ id := 1, email := "a", hashedOtp := 9, expiresAt := 10,
           used := false, type := OtpType.emailVerification, createdAt := 0,
           userId := none }] := by
  decide

/-- C4 amended: every failing `verifyEmailOtp` call marks no row used and
creates no row — its only store effect is the cleanup sweep's deletion of
expired rows, i.e. the resulting store is exactly `cleanupExpiredOtps` of the
input store. -/
theorem verifyOtp_failure_only_cleanup (bcryptCompare : Nat → Nat → Bool)
    (now : Nat) (email : String) (otp : Nat) (otps : List OtpRec)
    (hfail : (verifyEmailOtp bcryptCompare now email otp otps).1 = false) :
    (verifyEmailOtp bcryptCompare now email otp otps).2
      = cleanupExpiredOtps now otps :=
  verifyEmailOtp_snd_of_false bcryptCompare now email otp otps hfail

/-- C4 witness: a mismatched code against an unexpired stored OTP. -/
theorem verifyOtp_failure_only_cleanup_witness :
    (verifyEmailOtp (fun c h => c == h) 100 "a" 7
        [{ id := 1, email := "a", hashedOtp := 9, expiresAt := 999999,
           used := false, type := OtpType.emailVerification, createdAt := 0,
           userId := none }]).2
      = cleanupExpiredOtps 100
          [{ id := 1, email := "a", hashedOtp := 9, expiresAt := 999999,
             used := false, type := OtpType.emailVerification, createdAt := 0,
             userId := none }] :=
  verifyOtp_failure_only_cleanup (fun c h => c == h) 100 "a" 7
    [{ id := 1, email := "a", hashedOtp := 9, expiresAt := 999999,
       used := false, type := OtpType.emailVerification, createdAt := 0,
       userId := none }] (by decide)

/-! ## C6: verifyEmail failure behaviour -/

/-- C6 counterexample: the OTP store holds a valid unexpired code for
`"a"` but no user `"a"` exists.  The `verifyEmail` call fails `NotFound`,
yet the OTP has already been consumed (marked used) by the failing call, so
the store is not left unchanged. -/
theorem verifyEmail_failure_consumes_counterexample :
    (verifyEmail (fun c h => c == h) 100 "a" 9 []
        [{ id := 1, email := "a", hashedOtp := 9, expiresAt := 999999,
           used := false, type := OtpType.emailVerification, createdAt := 0,
           userId := none }]).1 = VerifyEmailResult.notFound "User not found" ∧
    (verifyEmail (fun c h => c == h) 100 "a" 9 []
        [{ id := 1, email := "a", hashedOtp := 9, expiresAt := 999999,
           used := false, type := OtpType.emailVerification, createdAt := 0,
           userId := none }]).2.2
      = [{ id := 1, email := "a", hashedOtp := 9, expiresAt := 999999,
           used := true, type := OtpType.emailVerification, createdAt := 0,
           userId := none }] := by
  decide

/-- C6 amended: a failing `verifyEmail` call never mutates the user store;
when the failure is the invalid/expired-OTP `BadRequest`, the OTP store is
only cleaned of expired rows (no row marked used); but the user-absent and
already-verified failures happen after the OTP was consumed. -/
theorem verifyEmail_failure_clean_parts (bcryptCompare : Nat → Nat → Bool)
    (now : Nat) (email : String) (otp : Nat) (users : List UserRec)
    (otps : List OtpRec) :
    ((verifyEmail bcryptCompare now email otp users otps).1
        = VerifyEmailResult.badRequest "Invalid or expired OTP" →
      (verifyEmail bcryptCompare now email otp users otps).2.1 = users ∧
      (verifyEmail bcryptCompare now email otp users otps).2.2
        = cleanupExpiredOtps now otps) ∧
    ((verifyEmail bcryptCompare now email otp users otps).1
        = VerifyEmailResult.notFound "User not found" →
      (verifyEmail bcryptCompare now email otp users otps).2.1 = users) ∧
    ((verifyEmail bcryptCompare now email otp users otps).1
        = VerifyEmailResult.badRequest "Email is already verified" →
      (verifyEmail bcryptCompare now email otp users otps).2.1 = users) := by
  simp only [verifyEmail]
  cases hv : (verifyEmailOtp bcryptCompare now email otp otps).1 with
  | false =>
    refine ⟨fun _ => ⟨by simp, ?_⟩, fun hcontra => ?_, fun hcontra => ?_⟩
    · simp only [Bool.not_false, if_true]
      exact verifyEmailOtp_snd_of_false bcryptCompare now email otp otps hv
    · simp at hcontra
    · simp at hcontra
  | true =>
    cases hf : findByEmail email users with
    | none =>
      refine ⟨fun hcontra => ?_, fun _ => ?_, fun hcontra => ?_⟩
      · simp [hf] at hcontra
      · simp [hf]
      · simp [hf] at hcontra
    | some u =>
      cases hu : u.emailVerified with
      | true =>
        refine ⟨fun hcontra => ?_, fun hcontra => ?_, fun _ => ?_⟩
        · simp [hf, hu] at hcontra
        · simp [hf, hu] at hcontra
        · simp [hf, hu]
      | false =>
        refine ⟨fun hcontra => ?_, fun hcontra => ?_, fun hcontra => ?_⟩
        · simp [hf, hu] at hcontra
        · simp [hf, hu] at hcontra
        · simp [hf, hu] at hcontra

/-- C6 witness: the amended no-user-mutation guarantee at the
counterexample's failing input. -/
theorem verifyEmail_failure_clean_parts_witness :
    (verifyEmail (fun c h => c == h) 100 "a" 9 []
        [{ id := 1, email := "a", hashedOtp := 9, expiresAt := 999999,
           used := false, type := OtpType.emailVerification, createdAt := 0,
           userId := none }]).2.1 = [] :=
  (verifyEmail_failure_clean_parts (fun c h => c == h) 100 "a" 9 []
      [{ id := 1, email := "a", hashedOtp := 9, expiresAt := 999999,
         used := false, type := OtpType.emailVerification, createdAt := 0,
         userId := none }]).2.1 (by decide)

/-! ## C1: refresh rotation is single-use -/

/-- C1: once a refresh secret has been successfully rotated, every later
`refreshToken` call presenting the same secret fails `Unauthorized("Invalid
refresh token")`.  Hypotheses: at most one stored row carries the presented
secret's hash (guaranteed in practice by the 512-bit random secrets), and the
successor's fresh secret hashes differently. -/
theorem rotate_single_use (hashToken : Nat → Nat)
    (now freshToken newId : Nat) (ua ip : Option String) (presented : Nat)
    (s : List RefreshToken)
    (hUnique : (s.filter (fun r => r.hashedToken == hashToken presented)).length ≤ 1)
    (hFresh : hashToken freshToken ≠ hashToken presented)
    (uid ft : Nat)
    (hSucc : (refreshToken hashToken now freshToken newId ua ip presented s).1
      = RotateResult.ok uid ft)
    (now2 fresh2 newId2 : Nat) (ua2 ip2 : Option String) :
    (refreshToken hashToken now2 fresh2 newId2 ua2 ip2 presented
        (refreshToken hashToken now freshToken newId ua ip presented s).2).1
      = RotateResult.unauthorized "Invalid refresh token" := by
  simp only [refreshToken] at hSucc ⊢
  cases hL : rotateLookup hashToken presented s with
  | none => simp [hL] at hSucc
  | some te =>
    simp only [hL] at hSucc ⊢
    by_cases hexp : te.expiresAt < now
    · simp [rotateCommit, hexp] at hSucc
    · have hL' := hL
      rw [rotateLookup] at hL'
      have hte_mem := List.mem_of_find?_eq_some hL'
      have hte_pred := List.find?_some hL'
      simp only [Bool.and_eq_true, beq_iff_eq, Bool.not_eq_true'] at hte_pred
      have hnone : rotateLookup hashToken presented
          (saveRefreshSession hashToken now freshToken newId te.userId ua ip
            (revokeById te.id s)) = none := by
        rw [rotateLookup, List.find?_eq_none]
        intro x hx
        rw [saveRefreshSession, List.mem_append] at hx
        cases hx with
        | inr hxnew =>
          rw [List.mem_singleton] at hxnew
          subst hxnew
          intro hpred
          simp only [Bool.and_eq_true, beq_iff_eq] at hpred
          exact hFresh hpred.1
        | inl hxold =>
          rw [revokeById, List.mem_map] at hxold
          obtain ⟨r, hr, hfr⟩ := hxold
          by_cases hid : (r.id == te.id) = true
          · rw [if_pos hid] at hfr
            subst hfr
            intro hpred
            simp at hpred
          · rw [if_neg hid] at hfr
            subst hfr
            intro hpred
            simp only [Bool.and_eq_true, beq_iff_eq, Bool.not_eq_true'] at hpred
            have hrne : r ≠ te := by
              intro he
              rw [he] at hid
              simp at hid
            have hrf : r ∈ s.filter
                (fun rr => rr.hashedToken == hashToken presented) := by
              rw [List.mem_filter]
              exact ⟨hr, by simp [hpred.1]⟩
            have htf : te ∈ s.filter
                (fun rr => rr.hashedToken == hashToken presented) := by
              rw [List.mem_filter]
              exact ⟨hte_mem, by simp [hte_pred.1]⟩
            have h2 := two_le_length_of_two_mem hrf htf hrne
            omega
      simp [rotateCommit, hexp, hnone]

/-- C1 witness: a concrete successful rotation followed by a replay of the
same secret. -/
theorem rotate_single_use_witness :
    (refreshToken (fun t => t) 50 7 2 none none 5
        (refreshToken (fun t => t) 50 7 2 none none 5
          [{ id := 1, hashedToken := 5, expiresAt := 1000, revoked := false,
             userAgent := none, ipAddress := none, createdAt := 0,
             userId := 9 }]).2).1
      = RotateResult.unauthorized "Invalid refresh token" :=
  rotate_single_use (fun t => t) 50 7 2 none none 5
    [{ id := 1, hashedToken := 5, expiresAt := 1000, revoked := false,
       userAgent := none, ipAddress := none, createdAt := 0, userId := 9 }]
    (by decide) (by decide) 9 7 (by decide) 50 7 2 none none

/-! ## C9: rotation under a race -/

/-- Fidelity of the two-phase decomposition: `refreshToken` is exactly the
`findOne` lookup followed by the commit tail operating on the row the lookup
returned. -/
theorem refreshToken_eq_lookup_commit (hashToken : Nat → Nat)
    (now freshToken newId : Nat) (ua ip : Option String) (presented : Nat)
    (s : List RefreshToken) :
    refreshToken hashToken now freshToken newId ua ip presented s
      = match rotateLookup hashToken presented s with
        | none => (RotateResult.unauthorized "Invalid refresh token", s)
        | some te => rotateCommit hashToken now freshToken newId ua ip te s := rfl

/-- C9 counterexample: two callers race to rotate the same secret.  Both
lookups read the same store and return the same unrevoked row; then both
commits run (the second on the store the first produced, holding its stale
row).  Both calls succeed — not "exactly one succeeds and the other receives
InvalidToken": the revoke is an unconditional update by primary key whose
affected-row count is never checked. -/
theorem rotate_race_counterexample :
    rotateLookup (fun t => t) 5
        [{ id := 1, hashedToken := 5, expiresAt := 1000, revoked := false,
           userAgent := none, ipAddress := none, createdAt := 0, userId := 7 }]
      = some { id := 1, hashedToken := 5, expiresAt := 1000, revoked := false,
               userAgent := none, ipAddress := none, createdAt := 0,
               userId := 7 } ∧
    (rotateCommit (fun t => t) 100 8 2 none none
        { id := 1, hashedToken := 5, expiresAt := 1000, revoked := false,
          userAgent := none, ipAddress := none, createdAt := 0, userId := 7 }
        [{ id := 1, hashedToken := 5, expiresAt := 1000, revoked := false,
           userAgent := none, ipAddress := none, createdAt := 0,
           userId := 7 }]).1 = RotateResult.ok 7 8 ∧
    (rotateCommit (fun t => t) 100 9 3 none none
        { id := 1, hashedToken := 5, expiresAt := 1000, revoked := false,
          userAgent := none, ipAddress := none, createdAt := 0, userId := 7 }
        (rotateCommit (fun t => t) 100 8 2 none none
          { id := 1, hashedToken := 5, expiresAt := 1000, revoked := false,
            userAgent := none, ipAddress := none, createdAt := 0, userId := 7 }
          [{ id := 1, hashedToken := 5, expiresAt := 1000, revoked := false,
             userAgent := none, ipAddress := none, createdAt := 0,
             userId := 7 }]).2).1 = RotateResult.ok 7 9 := by
  decide

/-- C9 amended: the rotation is a plain find-then-update (no conditional
update, no affected-row check), so whenever two callers both pass the lookup
on the same unexpired row before either commits, both commits succeed. -/
theorem rotate_race_both_succeed (hashToken : Nat → Nat)
    (now1 f1 id1 now2 f2 id2 : Nat) (ua1 ip1 ua2 ip2 : Option String)
    (presented : Nat) (s : List RefreshToken) (te : RefreshToken)
    (hL : rotateLookup hashToken presented s = some te)
    (h1 : ¬ te.expiresAt < now1) (h2 : ¬ te.expiresAt < now2) :
    (rotateCommit hashToken now1 f1 id1 ua1 ip1 te s).1
      = RotateResult.ok te.userId f1 ∧
    (rotateCommit hashToken now2 f2 id2 ua2 ip2 te
        (rotateCommit hashToken now1 f1 id1 ua1 ip1 te s).2).1
      = RotateResult.ok te.userId f2 := by
  constructor
  · simp [rotateCommit, h1]
  · simp [rotateCommit, h2]

/-- C9 witness: the amended race statement at the counterexample's store. -/
theorem rotate_race_both_succeed_witness :
    (rotateCommit (fun t => t) 100 8 2 none none
        { id := 1, hashedToken := 5, expiresAt := 1000, revoked := false,
          userAgent := none, ipAddress := none, createdAt := 0, userId := 7 }
        [{ id := 1, hashedToken := 5, expiresAt := 1000, revoked := false,
           userAgent := none, ipAddress := none, createdAt := 0,
           userId := 7 }]).1 = RotateResult.ok 7 8 ∧
    (rotateCommit (fun t => t) 100 9 3 none none
        { id := 1, hashedToken := 5, expiresAt := 1000, revoked := false,
          userAgent := none, ipAddress := none, createdAt := 0, userId := 7 }
        (rotateCommit (fun t => t) 100 8 2 none none
          { id := 1, hashedToken := 5, expiresAt := 1000, revoked := false,
            userAgent := none, ipAddress := none, createdAt := 0, userId := 7 }
          [{ id := 1, hashedToken := 5, expiresAt := 1000, revoked := false,
             userAgent := none, ipAddress := none, createdAt := 0,
             userId := 7 }]).2).1 = RotateResult.ok 7 9 :=
  rotate_race_both_succeed (fun t => t) 100 8 2 100 9 3 none none none none 5
    [{ id := 1, hashedToken := 5, expiresAt := 1000, revoked := false,
       userAgent := none, ipAddress := none, createdAt := 0, userId := 7 }]
    { id := 1, hashedToken := 5, expiresAt := 1000, revoked := false,
      userAgent := none, ipAddress := none, createdAt := 0, userId := 7 }
    (by decide) (by decide) (by decide)

/-! ## C3: login failure messages -/

/-- C3 counterexample: an absent user and an unverified user with the correct
password both fail `Unauthorized`, but with two different messages — the
unverified case reveals verification state, so the three failure causes are
not collapsed into one identical generic message. -/
theorem login_message_counterexample :
    (login (fun _ _ => true) (fun t => t) 0 1 1 "a" 0 none none [] []).1
      = LoginResult.unauthorized "Invalid email or password" ∧
    (login (fun _ _ => true) (fun t => t) 0 1 1 "a" 0 none none
        [{ id := 1, email := "a", name := none, password := 0,
           emailVerified := false }] []).1
      = LoginResult.unauthorized "Please verify your email before logging in" ∧
    ("Invalid email or password" : String)
      ≠ "Please verify your email before logging in" := by
  decide

/-- C3 amended: every failure cause throws `Unauthorized`; the absent-user
and wrong-password causes share the identical generic message, while the
unverified-email cause carries its own distinct message. -/
theorem login_unauthorized_messages (bcryptCompare : Nat → Nat → Bool)
    (hashToken : Nat → Nat) (now freshToken newId : Nat) (email : String)
    (password : Nat) (ua ip : Option String) (users : List UserRec)
    (sessions : List RefreshToken) :
    (findByEmail email users = none →
      (login bcryptCompare hashToken now freshToken newId email password ua ip
          users sessions).1
        = LoginResult.unauthorized "Invalid email or password") ∧
    (∀ u, findByEmail email users = some u → u.emailVerified = false →
      (login bcryptCompare hashToken now freshToken newId email password ua ip
          users sessions).1
        = LoginResult.unauthorized "Please verify your email before logging in") ∧
    (∀ u, findByEmail email users = some u → u.emailVerified = true →
      bcryptCompare password u.password = false →
      (login bcryptCompare hashToken now freshToken newId email password ua ip
          users sessions).1
        = LoginResult.unauthorized "Invalid email or password") := by
  refine ⟨fun h => ?_, fun u hu hv => ?_, fun u hu hv hc => ?_⟩
  · simp [login, h]
  · simp [login, hu, hv]
  · simp [login, hu, hv, hc]

/-- C3 witness: the absent-user arm of the amended statement. -/
theorem login_unauthorized_messages_witness :
    (login (fun _ _ => true) (fun t => t) 0 1 1 "a" 0 none none [] []).1
      = LoginResult.unauthorized "Invalid email or password" :=
  (login_unauthorized_messages (fun _ _ => true) (fun t => t) 0 1 1 "a" 0
    none none [] []).1 (by decide)

/-! ## C7: revokeSession -/

/-- C7 counterexample: the session exists, belongs to the caller, and is
already revoked — the claim says the call is a succeeding no-op, but the
conditional update matches zero rows and the call throws
`NotFound("Session not found")`. -/
theorem revokeSession_already_revoked_counterexample :
    revokeSession 7 1
        [{ id := 1, hashedToken := 5, expiresAt := 1000, revoked := true,
           userAgent := none, ipAddress := none, createdAt := 0, userId := 7 }]
      = (RevokeResult.notFound "Session not found",
         [{ id := 1, hashedToken := 5, expiresAt := 1000, revoked := true,
            userAgent := none, ipAddress := none, createdAt := 0,
            userId := 7 }]) := by
  decide

/-- C7 amended: `revokeSession` succeeds exactly when the store holds an
unrevoked session with that id owned by that user; otherwise — absent,
already revoked, or owned by another user alike — it throws the one
`NotFound("Session not found")` error (so other users' sessions are still not
distinguishable) and leaves the store unchanged. -/
theorem revokeSession_characterization (userId sessionId : Nat)
    (s : List RefreshToken) :
    ((s.any (fun r => r.id == sessionId && r.userId == userId && !r.revoked))
        = false →
      revokeSession userId sessionId s
        = (RevokeResult.notFound "Session not found", s)) ∧
    ((s.any (fun r => r.id == sessionId && r.userId == userId && !r.revoked))
        = true →
      (revokeSession userId sessionId s).1 = RevokeResult.ok) := by
  constructor
  · intro h
    have hall : ∀ r ∈ s,
        (r.id == sessionId && r.userId == userId && !r.revoked) = false := by
      intro r hr
      cases hp : (r.id == sessionId && r.userId == userId && !r.revoked) with
      | false => rfl
      | true =>
        have : s.any (fun r => r.id == sessionId && r.userId == userId
            && !r.revoked) = true := List.any_eq_true.mpr ⟨r, hr, hp⟩
        rw [h] at this
        exact Bool.noConfusion this
    have hcount : s.countP
        (fun r => r.id == sessionId && r.userId == userId && !r.revoked)
        = 0 := by
      rw [List.countP_eq_zero]
      intro a ha hpa
      rw [hall a ha] at hpa
      exact Bool.noConfusion hpa
    have hid : s.map (fun r =>
        if r.id == sessionId && r.userId == userId && !r.revoked then
          { r with revoked := true }
        else r) = s :=
      map_ite_eq_self_of_no_match _ _ s hall
    simp only [revokeSession]
    rw [hcount, hid]
    simp
  · intro h
    obtain ⟨a, ha, hpa⟩ := List.any_eq_true.mp h
    have hpos : 0 < s.countP
        (fun r => r.id == sessionId && r.userId == userId && !r.revoked) :=
      List.countP_pos.mpr ⟨a, ha, hpa⟩
    have hne : s.countP
        (fun r => r.id == sessionId && r.userId == userId && !r.revoked)
        ≠ 0 := by omega
    simp [revokeSession, hne]

/-- C7 witness: the NotFound no-op arm on a store with no matching session. -/
theorem revokeSession_characterization_witness :
    revokeSession 7 1 [] = (RevokeResult.notFound "Session not found", []) :=
  (revokeSession_characterization 7 1 []).1 (by decide)

/-! ## C8: per-request access-token validation -/

/-- C8 counterexample: the same JWT payload (valid signature and expiry by
assumption of the claim) is rejected when the user is absent from the store,
rejected when the user exists unverified, and accepted when the user exists
verified — so acceptance depends on the current store state. -/
theorem validateUser_store_dependent_counterexample :
    validateUser { sub := 1, email := "a", emailVerified := true } [] = none ∧
    validateUser { sub := 1, email := "a", emailVerified := true }
        [{ id := 1, email := "a", name := none, password := 0,
           emailVerified := false }] = none ∧
    validateUser { sub := 1, email := "a", emailVerified := true }
        [{ id := 1, email := "a", name := none, password := 0,
           emailVerified := true }]
      = some { id := 1, email := "a", name := none, password := 0,
               emailVerified := true } := by
  decide

/-- C8 amended: per-request validation is not stateless — beyond signature
and expiry, `validateUser` accepts a payload exactly when a user with the
token's email currently exists in the store with `emailVerified` true. -/
theorem validateUser_characterization (payload : JwtPayload)
    (users : List UserRec) (u : UserRec) :
    validateUser payload users = some u ↔
      findByEmail payload.email users = some u ∧ u.emailVerified = true := by
  simp only [validateUser]
  cases h : findByEmail payload.email users with
  | none => simp
  | some v =>
    cases hv : v.emailVerified with
    | true =>
      simp only [hv, if_true, Option.some.injEq]
      constructor
      · intro he
        subst he
        exact ⟨rfl, hv⟩
      · exact fun hand => hand.1
    | false =>
      constructor
      · intro he
        simp [hv] at he
      · intro hand
        obtain ⟨he, hver⟩ := hand
        have hvu : v = u := Option.some.inj he
        rw [← hvu] at hver
        rw [hv] at hver
        exact Bool.noConfusion hver

/-! ## C10: active-session listing ignores expiry -/

/-- C10: `getActiveSessions` filters on `revoked` only, so a session whose
`expiresAt` lies in the past but which was never revoked still appears in the
listing. -/
theorem getActiveSessions_ignores_expiry (userId : Nat)
    (s : List RefreshToken) (r : RefreshToken) (now : Nat) (hmem : r ∈ s)
    (hown : r.userId = userId) (hrev : r.revoked = false)
    (hexp : r.expiresAt < now) :
    sessionView r ∈ getActiveSessions userId s := by
  rw [getActiveSessions]
  apply List.mem_map_of_mem
  rw [mem_sortByCreatedAtDesc, List.mem_filter]
  refine ⟨hmem, ?_⟩
  simp [hown, hrev]

/-- C10 witness: a long-expired, never-revoked session still listed. -/
theorem getActiveSessions_ignores_expiry_witness :
    sessionView { id := 1, hashedToken := 5, expiresAt := 10, revoked := false,
                  userAgent := none, ipAddress := none, createdAt := 0,
                  userId := 7 }
      ∈ getActiveSessions 7
          [{ id := 1, hashedToken := 5, expiresAt := 10, revoked := false,
             userAgent := none, ipAddress := none, createdAt := 0,
             userId := 7 }] :=
  getActiveSessions_ignores_expiry 7
    [{ id := 1, hashedToken := 5, expiresAt := 10, revoked := false,
       userAgent := none, ipAddress := none, createdAt := 0, userId := 7 }]
    { id := 1, hashedToken := 5, expiresAt := 10, revoked := false,
      userAgent := none, ipAddress := none, createdAt := 0, userId := 7 }
    100 (by decide) rfl rfl (by decide)
